import Mathlib

/-!
Shallow embedding of the EduOpportunity service layer
(`app/services/opportunity_service.py` and
`app/services/notification_service.py`) over an explicit relational state.

Conventions of the embedding:
* each SQL table is a `List` of rows inside `Db`; a query is a pure function
  on that state, an update returns the new state;
* SQL `ILIKE '%pat%'` is case-insensitive substring containment; SQLite's
  `LIKE` folds case only on ASCII, which `lowerChar` mirrors; an `ILIKE`
  applied to a NULL column is not satisfied, which the call sites encode by
  matching on the `Option`;
* Python truthiness on optional strings (`if search.query:`) is `strTruthy`:
  `None` and the empty string are falsy;
* `DateTime` columns are represented by `Nat` tick counts where only ordering
  matters (`created_at`), and by their rendered `"%Y-%m-%d"` string where only
  presence and the rendered text matter (`deadline`);
* a raised Python exception that propagates out of an operation is an
  `Except.error` carrying the store as it stood at the raise;
* columns never read by the embedded operations (emails, names, timestamps on
  secondary tables, surrogate keys of notifications) are omitted.
-/

namespace EduOpp

/-- ASCII lower-casing of one character, as SQLite `LIKE` case folding. -/
def lowerChar (c : Char) : Char :=
  if 65 ≤ c.toNat && c.toNat ≤ 90 then Char.ofNat (c.toNat + 32) else c

/-- Does the character list start with the pattern? -/
def charsStartWith : List Char → List Char → Bool
  | [], _ => true
  | _ :: _, [] => false
  | a :: as, b :: bs => a == b && charsStartWith as bs

/-- Does the character list contain the pattern as a contiguous segment? -/
def charsContain (pat : List Char) : List Char → Bool
  | [] => charsStartWith pat []
  | c :: rest => charsStartWith pat (c :: rest) || charsContain pat rest

/-- `column ILIKE '%pat%'`: case-insensitive substring containment. -/
def ilikeContains (hay pat : String) : Bool :=
  charsContain (pat.data.map lowerChar) (hay.data.map lowerChar)

/-- Python truthiness of an optional string: `None` and `""` are falsy. -/
def strTruthy : Option String → Bool
  | none => false
  | some s => !s.isEmpty

/-- Python truthiness of an optional list: `None` and `[]` are falsy. -/
def listTruthy : Option (List String) → Bool
  | none => false
  | some l => !l.isEmpty

/-- The `Platform` enum of `app/db/models.py`. -/
inductive Platform where
  | telegram
  | discord
  | whatsapp
  deriving DecidableEq

/-- A row of the `opportunities` table. -/
structure Opportunity where
  id : Nat
  title : String
  description : String
  opportunity_type : String
  organization : String
  url : Option String
  /-- deadline, already rendered with `strftime("%Y-%m-%d")`; `none` = NULL. -/
  deadline : Option String
  location : Option String
  language : String
  tags : List String
  is_active : Bool
  created_by : Nat
  created_at : Nat
  deriving DecidableEq

/-- A row of the `users` table (columns the services read). -/
structure User where
  id : Nat
  is_active : Bool
  deriving DecidableEq

/-- A row of the `user_platforms` table. -/
structure UserPlatform where
  user_id : Nat
  platform : Platform
  platform_user_id : String
  is_active : Bool
  deriving DecidableEq

/-- A row of the `user_preferences` table (columns the services read). -/
structure UserPreferences where
  user_id : Nat
  interests : List String
  field_of_study : Option String
  location : Option String
  deriving DecidableEq

/-- A row of the `subscriptions` table. -/
structure Subscription where
  id : Nat
  user_id : Nat
  opportunity_id : Nat
  is_active : Bool
  deriving DecidableEq

/-- A row of the `notifications` table. -/
structure Notification where
  user_id : Nat
  opportunity_id : Nat
  platform : Platform
  message : String
  is_read : Bool
  deriving DecidableEq

/-- The relational store: one list per table, in insertion order. -/
structure Db where
  opportunities : List Opportunity
  users : List User
  user_platforms : List UserPlatform
  user_preferences : List UserPreferences
  subscriptions : List Subscription
  notifications : List Notification
  deriving DecidableEq

/-- The `OpportunitySearch` filter schema (`app/schemas/opportunity.py`). -/
structure OpportunitySearch where
  query : Option String := none
  opportunity_type : Option String := none
  tags : Option (List String) := none
  location : Option String := none
  language : Option String := none
  limit : Nat := 20
  offset : Nat := 0
  deriving DecidableEq

/-- Insert into a list already sorted by `created_at` descending. -/
def insertByCreatedDesc (o : Opportunity) : List Opportunity → List Opportunity
  | [] => [o]
  | x :: xs =>
    if x.created_at < o.created_at then o :: x :: xs
    else x :: insertByCreatedDesc o xs

/-- `ORDER BY created_at DESC` as an insertion sort (stable on ties). -/
def sortByCreatedDesc : List Opportunity → List Opportunity
  | [] => []
  | x :: xs => insertByCreatedDesc x (sortByCreatedDesc xs)

/-- The row predicate of `OpportunityService.search_opportunities`: the
conjunction of the base `is_active` filter with each optional filter the
search carries (free-text over title/description/organization OR'd, exact
type, disjunctive tag membership, location substring, exact language). -/
def searchPred (s : OpportunitySearch) (o : Opportunity) : Bool :=
  o.is_active
  && (if strTruthy s.query then
        match s.query with
        | some q =>
          ilikeContains o.title q || ilikeContains o.description q
            || ilikeContains o.organization q
        | none => true
      else true)
  && (match s.opportunity_type with
      | some t => o.opportunity_type == t
      | none => true)
  && (if listTruthy s.tags then
        match s.tags with
        | some ts => ts.any (fun t => o.tags.contains t)
        | none => true
      else true)
  && (if strTruthy s.location then
        match s.location with
        | some l =>
          match o.location with
          | some ol => ilikeContains ol l
          | none => false
        | none => true
      else true)
  && (if strTruthy s.language then
        match s.language with
        | some lg => o.language == lg
        | none => true
      else true)

/-- `OpportunityService.search_opportunities`: filter, then
`OFFSET`/`LIMIT`. -/
def search_opportunities (db : Db) (s : OpportunitySearch) : List Opportunity :=
  ((db.opportunities.filter (searchPred s)).drop s.offset).take s.limit

/-- The interest clause of `get_user_recommendations`: skipped when the
interest list is (Python-)falsy, otherwise a disjunction of tag
containments. -/
def interestFilter (p : UserPreferences) (o : Opportunity) : Bool :=
  if p.interests.isEmpty then true
  else p.interests.any (fun t => o.tags.contains t)

/-- The field-of-study clause of `get_user_recommendations`: skipped when
falsy, otherwise `title ILIKE '%f%' OR description ILIKE '%f%'`. -/
def fieldFilter (p : UserPreferences) (o : Opportunity) : Bool :=
  if strTruthy p.field_of_study then
    match p.field_of_study with
    | some f => ilikeContains o.title f || ilikeContains o.description f
    | none => true
  else true

/-- The location clause of `get_user_recommendations`: skipped when falsy,
otherwise `location ILIKE '%l%'` (false on a NULL location). -/
def locationFilter (p : UserPreferences) (o : Opportunity) : Bool :=
  if strTruthy p.location then
    match p.location with
    | some l =>
      match o.location with
      | some ol => ilikeContains ol l
      | none => false
    | none => true
  else true

/-- The candidate set of `get_user_recommendations` for a user with a
preference row: active opportunities passing every clause the query chained
with `.where` (the clauses combine conjunctively). -/
def recommendCandidates (db : Db) (p : UserPreferences) : List Opportunity :=
  db.opportunities.filter
    (fun o => o.is_active && interestFilter p o && fieldFilter p o
      && locationFilter p o)

/-- `OpportunityService.get_user_recommendations`: look the preference row
up; with no row, the most recent active opportunities; with a row, the
candidate set, ordered by `created_at` descending, truncated to `limit`. -/
def get_user_recommendations (db : Db) (user_id : Nat) (limit : Nat) :
    List Opportunity :=
  match db.user_preferences.find? (fun p => p.user_id == user_id) with
  | none =>
    (sortByCreatedDesc (db.opportunities.filter (fun o => o.is_active))).take
      limit
  | some p => (sortByCreatedDesc (recommendCandidates db p)).take limit

/-- The next surrogate key for a subscription row. -/
def freshSubscriptionId (db : Db) : Nat :=
  db.subscriptions.foldl (fun m s => max m s.id) 0 + 1

/-- The shared `WHERE` condition of `subscribe_user` and `unsubscribe_user`:
the row belongs to the (user, opportunity) pair. -/
def subMatches (opportunity_id user_id : Nat) (s : Subscription) : Bool :=
  s.user_id == user_id && s.opportunity_id == opportunity_id

/-- `OpportunityService.subscribe_user`: return `none` when any row for the
(user, opportunity) pair exists — its `is_active` flag is not consulted —
otherwise insert a fresh active row and return it. -/
def subscribe_user (db : Db) (opportunity_id user_id : Nat) :
    Db × Option Subscription :=
  match db.subscriptions.find? (subMatches opportunity_id user_id) with
  | some _ => (db, none)
  | none =>
    let sub : Subscription :=
      { id := freshSubscriptionId db, user_id := user_id,
        opportunity_id := opportunity_id, is_active := true }
    ({ db with subscriptions := db.subscriptions ++ [sub] }, some sub)

/-- `OpportunityService.unsubscribe_user`: set `is_active := false` on every
row of the pair; the returned Boolean is `rowcount > 0`, the number of rows
the `UPDATE` matched (the prior `is_active` value is not consulted). -/
def unsubscribe_user (db : Db) (opportunity_id user_id : Nat) : Db × Bool :=
  ({ db with
      subscriptions :=
        db.subscriptions.map
          (fun s =>
            if subMatches opportunity_id user_id s then
              { s with is_active := false }
            else s) },
    !(db.subscriptions.filter (subMatches opportunity_id user_id)).isEmpty)

/-- `OpportunityService.delete_opportunity`: soft delete — set
`is_active := false` on every row with the id; the Boolean is
`rowcount > 0`. -/
def delete_opportunity (db : Db) (opportunity_id : Nat) : Db × Bool :=
  ({ db with
      opportunities :=
        db.opportunities.map
          (fun o =>
            if o.id == opportunity_id then { o with is_active := false }
            else o) },
    !(db.opportunities.filter (fun o => o.id == opportunity_id)).isEmpty)

/-- `NotificationService._format_opportunity_message`, accumulation step by
step as the Python `message += ...` lines. The description slice
`description[:200]` is a 200-character take, and the `"..."` marker is part
of the f-string, appended whether or not the slice truncated anything. Lines
for deadline and url/location are guarded by Python truthiness of the
column (`none` for deadline; `none` or `""` for the strings), and the tags
line joins the first 5 tags when the list is non-empty. -/
def format_opportunity_message (o : Opportunity) : String :=
  let message := "🎓 *" ++ o.title ++ "*\n\n"
  let message :=
    message ++ "📝 " ++ String.mk (o.description.data.take 200) ++ "...\n\n"
  let message := message ++ "🏢 Organization: " ++ o.organization ++ "\n"
  let message :=
    match o.deadline with
    | some d => message ++ "⏰ Deadline: " ++ d ++ "\n"
    | none => message
  let message :=
    if strTruthy o.location then
      match o.location with
      | some l => message ++ "📍 Location: " ++ l ++ "\n"
      | none => message
    else message
  let message :=
    if strTruthy o.url then
      match o.url with
      | some u => message ++ "🔗 Learn more: " ++ u ++ "\n"
      | none => message
    else message
  let message :=
    if o.tags.isEmpty then message
    else message ++ "🏷️ Tags: " ++ String.intercalate ", " (o.tags.take 5) ++ "\n"
  message

/-- `NotificationService.send_opportunity_alert`: resolve the opportunity
by id (`scalar_one_or_none`; the row's `is_active` flag is never
consulted) and return `false` when no row resolves. When a row DOES
resolve, both target-resolution branches build their user query with
`selectinload(User.platforms)` — and the subscriber branch additionally
names `Subscription` — but `notification_service.py` imports neither name
(its imports are `select`, `update`, `and_` and the model/bot classes
only, and no star import or builtins patching exists anywhere in the
package), so the call raises `NameError` while constructing the query:
before any target user is resolved, any send attempted, or any
notification row recorded. The raise is modelled as `Except.error`
carrying the store exactly as it was at the raise, i.e. unchanged; the
`user_ids` argument cannot influence the outcome because both branches
raise the same way. -/
def send_opportunity_alert (db : Db) (opportunity_id : Nat)
    (_user_ids : Option (List Nat)) : Except Db (Db × Bool) :=
  match db.opportunities.find? (fun o => o.id == opportunity_id) with
  | none => .ok (db, false)
  | some _ => .error db

/-! ### List-level helper lemmas -/

/-- Membership in an insertion step of the descending sort. -/
lemma mem_insertByCreatedDesc {a o : Opportunity} {l : List Opportunity} :
    a ∈ insertByCreatedDesc o l ↔ a = o ∨ a ∈ l := by
  induction l with
  | nil => simp [insertByCreatedDesc]
  | cons x xs ih =>
    simp only [insertByCreatedDesc]
    split
    · simp
    · simp [ih]
      tauto

/-- The descending sort keeps exactly the members of its input. -/
lemma mem_sortByCreatedDesc {a : Opportunity} {l : List Opportunity} :
    a ∈ sortByCreatedDesc l ↔ a ∈ l := by
  induction l with
  | nil => simp [sortByCreatedDesc]
  | cons x xs ih => simp [sortByCreatedDesc, mem_insertByCreatedDesc, ih]

/-- Inserting preserves the descending-`created_at` pairwise order. -/
lemma pairwise_insertByCreatedDesc {o : Opportunity} {l : List Opportunity}
    (h : l.Pairwise (fun a b => b.created_at ≤ a.created_at)) :
    (insertByCreatedDesc o l).Pairwise
      (fun a b => b.created_at ≤ a.created_at) := by
  induction l with
  | nil => simp [insertByCreatedDesc]
  | cons x xs ih =>
    simp only [insertByCreatedDesc]
    rcases List.pairwise_cons.mp h with ⟨hx, hxs⟩
    split
    · rename_i hlt
      refine List.pairwise_cons.mpr ⟨?_, h⟩
      intro b hb
      rcases List.mem_cons.mp hb with rfl | hbx
      · exact Nat.le_of_lt hlt
      · exact Nat.le_trans (hx b hbx) (Nat.le_of_lt hlt)
    · rename_i hge
      refine List.pairwise_cons.mpr ⟨?_, ih hxs⟩
      intro b hb
      rcases mem_insertByCreatedDesc.mp hb with rfl | hbx
      · exact Nat.le_of_not_lt hge
      · exact hx b hbx

/-- The sort is pairwise descending in `created_at`. -/
lemma pairwise_sortByCreatedDesc (l : List Opportunity) :
    (sortByCreatedDesc l).Pairwise (fun a b => b.created_at ≤ a.created_at) := by
  induction l with
  | nil => simp [sortByCreatedDesc]
  | cons x xs ih => exact pairwise_insertByCreatedDesc ih

/-- A member of a search result is a stored row satisfying the filter. -/
lemma mem_search_opportunities {db : Db} {s : OpportunitySearch}
    {o : Opportunity} (h : o ∈ search_opportunities db s) :
    o ∈ db.opportunities ∧ searchPred s o = true := by
  have h1 : o ∈ (db.opportunities.filter (searchPred s)).drop s.offset :=
    List.mem_of_mem_take h
  have h2 : o ∈ db.opportunities.filter (searchPred s) :=
    List.mem_of_mem_drop h1
  exact ⟨(List.mem_filter.mp h2).1, (List.mem_filter.mp h2).2⟩

/-- A member of the candidate set is a stored row satisfying every clause. -/
lemma mem_recommendCandidates {db : Db} {p : UserPreferences}
    {o : Opportunity} (h : o ∈ recommendCandidates db p) :
    o ∈ db.opportunities ∧ o.is_active = true ∧ interestFilter p o = true
      ∧ fieldFilter p o = true ∧ locationFilter p o = true := by
  rcases List.mem_filter.mp h with ⟨hmem, hpred⟩
  simp only [Bool.and_eq_true] at hpred
  exact ⟨hmem, hpred.1.1.1, hpred.1.1.2, hpred.1.2, hpred.2⟩

/-- A recommendation is a stored active row (either branch). -/
lemma mem_get_user_recommendations {db : Db} {uid limit : Nat}
    {o : Opportunity} (h : o ∈ get_user_recommendations db uid limit) :
    o ∈ db.opportunities ∧ o.is_active = true := by
  unfold get_user_recommendations at h
  cases hf : db.user_preferences.find? (fun p => p.user_id == uid) with
  | none =>
    rw [hf] at h
    have := mem_sortByCreatedDesc.mp (List.mem_of_mem_take h)
    exact ⟨(List.mem_filter.mp this).1, (List.mem_filter.mp this).2⟩
  | some p =>
    rw [hf] at h
    have := mem_recommendCandidates
      (mem_sortByCreatedDesc.mp (List.mem_of_mem_take h))
    exact ⟨this.1, this.2.1⟩

/-- With a preference row, a recommendation comes from the candidate set. -/
lemma mem_rec_of_prefs {db : Db} {uid limit : Nat} {p : UserPreferences}
    (hp : db.user_preferences.find? (fun q => q.user_id == uid) = some p)
    {o : Opportunity} (h : o ∈ get_user_recommendations db uid limit) :
    o ∈ recommendCandidates db p := by
  unfold get_user_recommendations at h
  rw [hp] at h
  exact mem_sortByCreatedDesc.mp (List.mem_of_mem_take h)

/-- The store with every opportunity row rewritten by `g` (other tables
untouched); used to state that an operation ignores given columns. -/
def mapOpps (g : Opportunity → Opportunity) (db : Db) : Db :=
  { db with opportunities := db.opportunities.map g }

/-- Insertion commutes with a row map that preserves `created_at`. -/
lemma insertByCreatedDesc_map {g : Opportunity → Opportunity}
    (hcr : ∀ o, (g o).created_at = o.created_at) (o : Opportunity)
    (l : List Opportunity) :
    insertByCreatedDesc (g o) (l.map g) = (insertByCreatedDesc o l).map g := by
  induction l with
  | nil => simp [insertByCreatedDesc]
  | cons x xs ih =>
    simp only [List.map_cons, insertByCreatedDesc, hcr]
    split
    · simp
    · simp [ih]

/-- The sort commutes with a row map that preserves `created_at`. -/
lemma sortByCreatedDesc_map {g : Opportunity → Opportunity}
    (hcr : ∀ o, (g o).created_at = o.created_at) (l : List Opportunity) :
    sortByCreatedDesc (l.map g) = (sortByCreatedDesc l).map g := by
  induction l with
  | nil => simp [sortByCreatedDesc]
  | cons x xs ih =>
    simp only [List.map_cons, sortByCreatedDesc, ih]
    exact insertByCreatedDesc_map hcr x (sortByCreatedDesc xs)

/-! ### Concrete fixtures for counterexamples and witnesses -/

/-- An active opportunity tagged `AI` whose text never mentions `Math`. -/
def cxO1 : Opportunity :=
  { id := 1, title := "AI Scholarship", description := "research stuff",
    opportunity_type := "scholarship", organization := "AI University",
    url := none, deadline := none, location := none, language := "en",
    tags := ["AI"], is_active := true, created_by := 1, created_at := 5 }

/-- Preferences with interest `AI` and field of study `Math`. -/
def cxP1 : UserPreferences :=
  { user_id := 1, interests := ["AI"], field_of_study := some "Math",
    location := none }

/-- Store for the field-of-study counterexample. -/
def cxDb1 : Db :=
  { opportunities := [cxO1], users := [], user_platforms := [],
    user_preferences := [cxP1], subscriptions := [], notifications := [] }

/-- Preferences whose field of study occurs in `cxO1`'s title. -/
def wP1 : UserPreferences :=
  { user_id := 9, interests := ["AI"], field_of_study := some "Scholarship",
    location := none }

/-- Store for the conjunctive-filter witness. -/
def wDb1 : Db :=
  { opportunities := [cxO1], users := [], user_platforms := [],
    user_preferences := [wP1], subscriptions := [], notifications := [] }

/-- Store with one opportunity and no subscription rows. -/
def dbNoSubs : Db :=
  { opportunities := [cxO1], users := [{ id := 1, is_active := true }],
    user_platforms := [], user_preferences := [], subscriptions := [],
    notifications := [] }

/-! ### Claim theorems -/

/-- C1 (counterexample): with interests `["AI"]` and field of study
`"Math"`, the active opportunity tagged `AI` whose title and description
never mention `Math` is NOT recommended — the fields combine conjunctively,
so the tagged opportunity the claim requires to be included is filtered
out. -/
theorem recommend_field_of_study_not_disjunctive_cex :
    cxO1.is_active = true
    ∧ cxP1.interests.any (fun t => cxO1.tags.contains t) = true
    ∧ cxP1.field_of_study = some "Math"
    ∧ ilikeContains cxO1.title "Math" = false
    ∧ ilikeContains cxO1.description "Math" = false
    ∧ get_user_recommendations cxDb1 1 10 = [] := by
  decide

/-- C1 (amended): for a user whose preference row has a non-empty interest
list and a non-empty field-of-study string, the field-of-study condition
narrows the tag filter: every recommended opportunity is active, shares at
least one tag with the interests, AND carries the field-of-study string as
a case-insensitive substring of its title or description (and passes the
location clause). -/
theorem recommend_field_of_study_narrows (db : Db) (uid limit : Nat)
    (p : UserPreferences) (f : String)
    (hp : db.user_preferences.find? (fun q => q.user_id == uid) = some p)
    (hi : p.interests.isEmpty = false)
    (hf : p.field_of_study = some f)
    (htf : strTruthy p.field_of_study = true)
    (o : Opportunity) (ho : o ∈ get_user_recommendations db uid limit) :
    o.is_active = true
    ∧ p.interests.any (fun t => o.tags.contains t) = true
    ∧ (ilikeContains o.title f || ilikeContains o.description f) = true
    ∧ locationFilter p o = true := by
  have hc := mem_recommendCandidates (mem_rec_of_prefs hp ho)
  refine ⟨hc.2.1, ?_, ?_, hc.2.2.2.2⟩
  · have h1 := hc.2.2.1
    simpa [interestFilter, hi] using h1
  · have h2 := hc.2.2.2.1
    rw [hf] at htf
    simpa [fieldFilter, hf, htf] using h2

/-- C1 (witness): the amended theorem applied to the concrete store where
the field of study `"Scholarship"` does occur in the title. -/
theorem recommend_field_of_study_narrows_witness :
    cxO1.is_active = true
    ∧ wP1.interests.any (fun t => cxO1.tags.contains t) = true
    ∧ (ilikeContains cxO1.title "Scholarship"
        || ilikeContains cxO1.description "Scholarship") = true
    ∧ locationFilter wP1 cxO1 = true :=
  recommend_field_of_study_narrows wDb1 9 10 wP1 "Scholarship" rfl rfl rfl
    (by decide) cxO1 (by decide)

/-- C2 (code bug): subscribing, unsubscribing, then subscribing again leaves
the pair with a single row that stays inactive: the second `subscribe_user`
sees the soft-deleted row, returns the `None` no-op signal, and never
re-activates the logical link, so no active Subscription is restored. -/
theorem resubscribe_after_unsubscribe_stays_inactive :
    (subscribe_user dbNoSubs 1 1).2.isSome = true
    ∧ (unsubscribe_user (subscribe_user dbNoSubs 1 1).1 1 1).2 = true
    ∧ (subscribe_user
        (unsubscribe_user (subscribe_user dbNoSubs 1 1).1 1 1).1 1 1).2 = none
    ∧ ((subscribe_user
          (unsubscribe_user (subscribe_user dbNoSubs 1 1).1 1 1).1 1 1).1.subscriptions.filter
        (fun s => subMatches 1 1 s && s.is_active)).length = 0
    ∧ ((subscribe_user
          (unsubscribe_user (subscribe_user dbNoSubs 1 1).1 1 1).1 1 1).1.subscriptions.filter
        (subMatches 1 1)).length = 1 := by
  decide

/-- C10: `unsubscribe_user` reports `rowcount > 0`: it returns `true`
exactly when some row for the (user, opportunity) pair exists, active or
not; in particular running it again on the already-deactivated store
returns the same answer. -/
theorem unsubscribe_true_iff_row_exists (db : Db) (oid uid : Nat) :
    ((unsubscribe_user db oid uid).2 = true
      ↔ ∃ s ∈ db.subscriptions, s.user_id = uid ∧ s.opportunity_id = oid)
    ∧ (unsubscribe_user (unsubscribe_user db oid uid).1 oid uid).2
        = (unsubscribe_user db oid uid).2 := by
  constructor
  · show (!(db.subscriptions.filter (subMatches oid uid)).isEmpty) = true ↔ _
    rw [Bool.not_eq_true']
    rw [List.isEmpty_eq_false_iff_exists_mem]
    constructor
    · rintro ⟨s, hs⟩
      rcases List.mem_filter.mp hs with ⟨hmem, hpred⟩
      simp only [subMatches, Bool.and_eq_true, beq_iff_eq] at hpred
      exact ⟨s, hmem, hpred.1, hpred.2⟩
    · rintro ⟨s, hmem, h1, h2⟩
      exact ⟨s, List.mem_filter.mpr ⟨hmem, by simp [subMatches, h1, h2]⟩⟩
  · show (!(((unsubscribe_user db oid uid).1.subscriptions.filter
        (subMatches oid uid))).isEmpty)
      = (!(db.subscriptions.filter (subMatches oid uid)).isEmpty)
    have hmap :
        (unsubscribe_user db oid uid).1.subscriptions.filter (subMatches oid uid)
          = (db.subscriptions.filter (subMatches oid uid)).map
              (fun s =>
                if subMatches oid uid s then { s with is_active := false }
                else s) := by
      show (db.subscriptions.map _).filter _ = _
      rw [List.filter_map]
      congr 1
      apply List.filter_congr
      intro s _
      by_cases hs : subMatches oid uid s = true
      · simp only [Function.comp, hs, if_pos]
        simpa [subMatches] using hs
      · simp only [Function.comp, if_neg hs]
    rw [hmap]
    generalize db.subscriptions.filter (subMatches oid uid) = fl
    cases fl <;> rfl

/-- The search filter requires the active flag (its first conjunct). -/
lemma searchPred_active {s : OpportunitySearch} {o : Opportunity}
    (h : searchPred s o = true) : o.is_active = true := by
  simp only [searchPred, Bool.and_eq_true] at h
  exact h.1.1.1.1.1

/-- Two cold-start fixture opportunities with distinct creation times. -/
def wO6a : Opportunity :=
  { id := 61, title := "Older", description := "d", opportunity_type := "event",
    organization := "org", url := none, deadline := none, location := none,
    language := "en", tags := ["X"], is_active := true, created_by := 1,
    created_at := 1 }

/-- The more recent cold-start fixture opportunity. -/
def wO6b : Opportunity :=
  { id := 62, title := "Newer", description := "d", opportunity_type := "event",
    organization := "org", url := none, deadline := none, location := none,
    language := "en", tags := ["Y"], is_active := true, created_by := 1,
    created_at := 2 }

/-- Cold-start store: opportunities but no preference rows. -/
def wDb6 : Db :=
  { opportunities := [wO6a, wO6b], users := [], user_platforms := [],
    user_preferences := [], subscriptions := [], notifications := [] }

/-- C6: for a user with no preference row, the recommendations are exactly
the active opportunities ordered by creation time descending and truncated
to `limit`; every result is active, the result is pairwise descending in
`created_at`, at most `limit` long, and (by id) unchanged under any rewrite
`g` of the opportunity rows that can alter tags, text, field or location
data but preserves `id`, `is_active` and `created_at`. -/
theorem cold_start_recent_active (db : Db) (uid limit : Nat)
    (h : db.user_preferences.find? (fun p => p.user_id == uid) = none)
    (g : Opportunity → Opportunity)
    (hid : ∀ o, (g o).id = o.id)
    (hact : ∀ o, (g o).is_active = o.is_active)
    (hcr : ∀ o, (g o).created_at = o.created_at) :
    get_user_recommendations db uid limit
      = (sortByCreatedDesc
          (db.opportunities.filter (fun o => o.is_active))).take limit
    ∧ (∀ o ∈ get_user_recommendations db uid limit, o.is_active = true)
    ∧ (get_user_recommendations db uid limit).Pairwise
        (fun a b => b.created_at ≤ a.created_at)
    ∧ (get_user_recommendations db uid limit).length ≤ limit
    ∧ (get_user_recommendations (mapOpps g db) uid limit).map (fun o => o.id)
        = (get_user_recommendations db uid limit).map (fun o => o.id) := by
  have hbranch : get_user_recommendations db uid limit
      = (sortByCreatedDesc
          (db.opportunities.filter (fun o => o.is_active))).take limit := by
    unfold get_user_recommendations
    rw [h]
  refine ⟨hbranch, ?_, ?_, ?_, ?_⟩
  · intro o ho
    exact (mem_get_user_recommendations ho).2
  · rw [hbranch]
    exact (pairwise_sortByCreatedDesc _).sublist (List.take_sublist _ _)
  · rw [hbranch]
    exact List.length_take_le _ _
  · have hbranch2 : get_user_recommendations (mapOpps g db) uid limit
        = (sortByCreatedDesc
            ((db.opportunities.map g).filter (fun o => o.is_active))).take
          limit := by
      unfold get_user_recommendations
      rw [show (mapOpps g db).user_preferences.find?
          (fun p => p.user_id == uid) = none from h]
      rfl
    have hfc : db.opportunities.filter ((fun o => o.is_active) ∘ g)
        = db.opportunities.filter (fun o => o.is_active) :=
      List.filter_congr (fun o _ => by simp [Function.comp, hact o])
    rw [hbranch2, hbranch, List.filter_map, hfc,
      sortByCreatedDesc_map hcr, ← List.map_take, List.map_map]
    exact List.map_congr_left (fun o _ => hid o)

/-- C6 (witness): the cold-start theorem at a concrete two-row store, with
`g` the identity rewrite. -/
theorem cold_start_recent_active_witness :
    get_user_recommendations wDb6 7 2
      = (sortByCreatedDesc
          (wDb6.opportunities.filter (fun o => o.is_active))).take 2 :=
  (cold_start_recent_active wDb6 7 2 rfl id (fun _ => rfl) (fun _ => rfl)
    (fun _ => rfl)).1

/-- C7: with a preference row present, (i) once a location preference is
(Python-)truthy every recommended opportunity has a non-NULL location,
(ii) an active stored opportunity passing the interest and field clauses
whose location contains the preferred string case-insensitively is a
recommendation candidate, and (iii) with no truthy location preference the
location clause excludes nothing. -/
theorem location_narrowing_asymmetric (db : Db) (uid limit : Nat)
    (p : UserPreferences)
    (hp : db.user_preferences.find? (fun q => q.user_id == uid) = some p) :
    (strTruthy p.location = true →
      ∀ o ∈ get_user_recommendations db uid limit, o.location ≠ none)
    ∧ (∀ l, p.location = some l →
        ∀ o ∈ db.opportunities, o.is_active = true →
          interestFilter p o = true → fieldFilter p o = true →
          ∀ s, o.location = some s → ilikeContains s l = true →
            o ∈ recommendCandidates db p)
    ∧ (strTruthy p.location = false → ∀ o, locationFilter p o = true) := by
  refine ⟨?_, ?_, ?_⟩
  · intro htr o ho hnone
    have hloc := (mem_recommendCandidates (mem_rec_of_prefs hp ho)).2.2.2.2
    cases hl : p.location with
    | none => rw [hl] at htr; simp [strTruthy] at htr
    | some l' =>
      rw [hl] at htr
      simp [locationFilter, hl, htr, hnone] at hloc
  · intro l hl o hmem hact hint hfield s hs hsub
    refine List.mem_filter.mpr ⟨hmem, ?_⟩
    simp only [Bool.and_eq_true]
    refine ⟨⟨⟨hact, hint⟩, hfield⟩, ?_⟩
    cases htv : strTruthy p.location with
    | false => simp [locationFilter, htv]
    | true => simp [locationFilter, htv, hl, hs, hsub]
  · intro hfalse o
    simp [locationFilter, hfalse]

/-- The Boston fixture: preferences with only a location. -/
def wP7 : UserPreferences :=
  { user_id := 2, interests := [], field_of_study := none,
    location := some "Boston" }

/-- An active opportunity located in the Boston area. -/
def wO7 : Opportunity :=
  { id := 71, title := "Event", description := "d", opportunity_type := "event",
    organization := "org", url := none, deadline := none,
    location := some "Boston Area", language := "en", tags := [],
    is_active := true, created_by := 1, created_at := 3 }

/-- Store for the location-narrowing witness. -/
def wDb7 : Db :=
  { opportunities := [wO7], users := [], user_platforms := [],
    user_preferences := [wP7], subscriptions := [], notifications := [] }

/-- C7 (witness): the theorem's inclusion part at the Boston store: the
`"Boston Area"` opportunity is a candidate for the `"Boston"` user. -/
theorem location_narrowing_asymmetric_witness :
    wO7 ∈ recommendCandidates wDb7 wP7 :=
  (location_narrowing_asymmetric wDb7 2 10 wP7 rfl).2.1 "Boston" rfl wO7
    (by decide) rfl (by decide) (by decide) "Boston Area" rfl (by decide)

/-- C8: after a soft delete no search result and no recommendation carries
the deleted id (for every filter, user and limit), while the subscription
and notification tables are untouched. -/
theorem soft_delete_exclusion (db : Db) (oid : Nat) (s : OpportunitySearch)
    (uid limit : Nat) :
    (∀ o ∈ search_opportunities (delete_opportunity db oid).1 s, o.id ≠ oid)
    ∧ (∀ o ∈ get_user_recommendations (delete_opportunity db oid).1 uid limit,
        o.id ≠ oid)
    ∧ (delete_opportunity db oid).1.subscriptions = db.subscriptions
    ∧ (delete_opportunity db oid).1.notifications = db.notifications := by
  have hkey : ∀ o ∈ (delete_opportunity db oid).1.opportunities,
      o.id = oid → o.is_active = false := by
    intro o ho hoid
    rcases List.mem_map.mp ho with ⟨x, hx, rfl⟩
    cases hxi : (x.id == oid) with
    | true => simp [hxi]
    | false =>
      simp only [hxi, Bool.false_eq_true, if_false] at hoid ⊢
      exact absurd (beq_iff_eq.mpr hoid) (by simp [hxi])
  refine ⟨?_, ?_, rfl, rfl⟩
  · intro o ho hoid
    have hm := mem_search_opportunities ho
    have hact := searchPred_active hm.2
    rw [hkey o hm.1 hoid] at hact
    cases hact
  · intro o ho hoid
    have hm := mem_get_user_recommendations ho
    have hact := hm.2
    rw [hkey o hm.1 hoid] at hact
    cases hact

/-- C3 (amended): `send_opportunity_alert` returns the failure signal
`False` — with the store untouched, so no sends and no delivery records —
exactly when the opportunity id resolves to no row; an id that resolves to
a row (active or inactive alike, the flag is never consulted) instead
raises `NameError` while building the user query, again before any send or
record but without ever returning `False`: the error carries the store
unchanged. -/
theorem alert_failure_iff_unresolved (db : Db) (oid : Nat)
    (uids : Option (List Nat)) :
    (send_opportunity_alert db oid uids = Except.ok (db, false)
      ↔ db.opportunities.find? (fun o => o.id == oid) = none)
    ∧ (send_opportunity_alert db oid uids = Except.error db
      ↔ (db.opportunities.find? (fun o => o.id == oid)).isSome = true) := by
  cases hf : db.opportunities.find? (fun o => o.id == oid) with
  | none => simp [send_opportunity_alert, hf]
  | some opp => simp [send_opportunity_alert, hf]

/-- An INACTIVE opportunity for the fail-fast counterexample. -/
def cxO3 : Opportunity :=
  { id := 31, title := "Closed", description := "gone",
    opportunity_type := "event", organization := "org", url := none,
    deadline := none, location := none, language := "en", tags := [],
    is_active := false, created_by := 1, created_at := 1 }

/-- The telegram binding of user 3. -/
def cxB3 : UserPlatform :=
  { user_id := 3, platform := .telegram, platform_user_id := "t3",
    is_active := true }

/-- User 3's live subscription to the inactive opportunity. -/
def cxSub3 : Subscription :=
  { id := 1, user_id := 3, opportunity_id := 31, is_active := true }

/-- Store where the inactive opportunity has one subscribed, bound user. -/
def cxDb3 : Db :=
  { opportunities := [cxO3], users := [{ id := 3, is_active := true }],
    user_platforms := [cxB3], user_preferences := [],
    subscriptions := [cxSub3], notifications := [] }

/-- C3 (counterexample): for an id resolving to an INACTIVE opportunity the
call does not return the failure signal `False`: it raises `NameError`
(modelled as the error outcome) while building the user query. No send and
no delivery record happens — the carried store is the input store — but
the claimed `False` return never occurs. -/
theorem alert_inactive_opportunity_raises_cex :
    cxO3.is_active = false
    ∧ send_opportunity_alert cxDb3 31 none = Except.error cxDb3
    ∧ cxDb3.notifications = [] :=
  ⟨rfl, rfl, rfl⟩

/-- The inactive subscription row of the targeting counterexample. -/
def cxSub4 : Subscription :=
  { id := 1, user_id := 2, opportunity_id := 41, is_active := false }

/-- An active opportunity whose only subscriber has unsubscribed. -/
def cxO4 : Opportunity :=
  { id := 41, title := "Open", description := "d", opportunity_type := "event",
    organization := "org", url := none, deadline := none, location := none,
    language := "en", tags := [], is_active := true, created_by := 1,
    created_at := 1 }

/-- The telegram binding of user 2. -/
def cxB4 : UserPlatform :=
  { user_id := 2, platform := .telegram, platform_user_id := "t2",
    is_active := true }

/-- Store for the targeting counterexample: user 2's only subscription to
opportunity 41 is soft-deleted, yet the user keeps an active binding. -/
def cxDb4 : Db :=
  { opportunities := [cxO4], users := [{ id := 2, is_active := true }],
    user_platforms := [cxB4], user_preferences := [],
    subscriptions := [cxSub4], notifications := [] }

/-- C4 (code evaluated at the failing input): with no explicit user set and
a resolving opportunity id, the call raises `NameError` while constructing
the subscriber query (`selectinload` / `Subscription` are unimported), so
the target-user set the claim describes is never computed: no user — with
an active subscription or otherwise — is resolved or alerted, and the
store (with its empty delivery log) is carried out unchanged. -/
theorem alert_raises_before_targeting_bug :
    cxDb4.subscriptions = [cxSub4]
    ∧ cxSub4.is_active = false
    ∧ (cxDb4.opportunities.find? (fun o => o.id == 41)).isSome = true
    ∧ send_opportunity_alert cxDb4 41 none = Except.error cxDb4
    ∧ cxDb4.notifications = [] :=
  ⟨rfl, rfl, rfl, rfl, rfl⟩

/-! ### Message shape (spec side of the formatting refinement) -/

/-- Title line of the alert message. -/
def alertTitleLine (o : Opportunity) : String := "🎓 *" ++ o.title ++ "*\n\n"

/-- Description line: the 200-character take with the unconditional
ellipsis marker. -/
def alertDescriptionLine (o : Opportunity) : String :=
  "📝 " ++ String.mk (o.description.data.take 200) ++ "...\n\n"

/-- Organization line of the alert message. -/
def alertOrgLine (o : Opportunity) : String :=
  "🏢 Organization: " ++ o.organization ++ "\n"

/-- Deadline line, present exactly when a deadline is present. -/
def alertDeadlineLine (o : Opportunity) : String :=
  match o.deadline with
  | some d => "⏰ Deadline: " ++ d ++ "\n"
  | none => ""

/-- Location line, present exactly when the location is truthy. -/
def alertLocationLine (o : Opportunity) : String :=
  if strTruthy o.location then
    "📍 Location: " ++ o.location.getD "" ++ "\n"
  else ""

/-- Url line, present exactly when the url is truthy. -/
def alertUrlLine (o : Opportunity) : String :=
  if strTruthy o.url then "🔗 Learn more: " ++ o.url.getD "" ++ "\n" else ""

/-- Tags line, joining the first five tags when any exist. -/
def alertTagsLine (o : Opportunity) : String :=
  if o.tags.isEmpty then ""
  else "🏷️ Tags: " ++ String.intercalate ", " (o.tags.take 5) ++ "\n"

/-- Appending the empty string on the right is the identity. -/
lemma str_append_empty_right (s : String) : s ++ "" = s := by
  cases s with
  | mk data => show String.mk (data ++ []) = String.mk data
               rw [List.append_nil]

/-- A concatenation whose left part has characters is not empty. -/
lemma str_append_ne_empty (a b : String) (h : a.data ≠ []) : a ++ b ≠ "" := by
  intro hEq
  apply h
  have hdata : (a ++ b).data = ([] : List Char) := congrArg String.data hEq
  rw [String.data_append] at hdata
  exact (List.append_eq_nil.mp hdata).1

/-- A pattern starts any list it prefixes. -/
lemma charsStartWith_refl_append (p zs : List Char) :
    charsStartWith p (p ++ zs) = true := by
  induction p with
  | nil => rfl
  | cons a as ih => simp [charsStartWith, ih]

/-- A pattern is contained where it is a prefix. -/
lemma charsContain_prefix (p zs : List Char) :
    charsContain p (p ++ zs) = true := by
  cases h : p ++ zs with
  | nil =>
    have hp : p = [] := (List.append_eq_nil.mp h).1
    rw [hp]
    rfl
  | cons c rest =>
    have hsw : charsStartWith p (c :: rest) = true :=
      h ▸ charsStartWith_refl_append p zs
    simp [charsContain, hsw]

/-- Containment is preserved by extending the text on the left. -/
lemma charsContain_append_right (p : List Char) (xs : List Char)
    {ys : List Char} (h : charsContain p ys = true) :
    charsContain p (xs ++ ys) = true := by
  induction xs with
  | nil => simpa using h
  | cons x rest ih => simp [charsContain, ih]

/-- C5 (amended): the formatted alert decomposes into the title line, the
description line — the first 200 characters of the description with the
ellipsis marker ALWAYS appended, truncated or not — the organization line,
a deadline line exactly when a deadline exists, location and url lines
exactly when those fields are present and non-empty, and a tags line with
the first (at most 5) tags exactly when tags exist; the description take
and the joined tags respect their bounds, and the ellipsis marker occurs in
the description line of every message. Determinism is inherent: the
formatter is a pure function of the row. -/
theorem format_message_structure (o : Opportunity) :
    format_opportunity_message o
      = ((((((alertTitleLine o ++ alertDescriptionLine o) ++ alertOrgLine o)
            ++ alertDeadlineLine o) ++ alertLocationLine o)
          ++ alertUrlLine o) ++ alertTagsLine o)
    ∧ (String.mk (o.description.data.take 200)).length ≤ 200
    ∧ (o.tags.take 5).length ≤ 5
    ∧ charsContain ("...".data) ((alertDescriptionLine o).data) = true
    ∧ (alertDeadlineLine o = "" ↔ o.deadline = none)
    ∧ (alertLocationLine o = "" ↔ strTruthy o.location = false)
    ∧ (alertUrlLine o = "" ↔ strTruthy o.url = false)
    ∧ (alertTagsLine o = "" ↔ o.tags = []) := by
  refine ⟨?_, ?_, ?_, ?_, ?_, ?_, ?_, ?_⟩
  · unfold format_opportunity_message alertTitleLine alertDescriptionLine
      alertOrgLine alertDeadlineLine alertLocationLine alertUrlLine
      alertTagsLine
    cases hd : o.deadline <;> cases hl : o.location <;> cases hu : o.url <;>
        cases ht : o.tags.isEmpty <;>
      simp only [strTruthy, Option.getD_some, Bool.false_eq_true, if_false,
        if_true] <;>
      (try split_ifs) <;>
      refine String.ext ?_ <;>
      simp [String.data_append, List.append_assoc]
  · show (o.description.data.take 200).length ≤ 200
    rw [List.length_take]
    exact Nat.min_le_left _ _
  · exact List.length_take_le _ _
  · unfold alertDescriptionLine
    rw [String.data_append, String.data_append]
    apply charsContain_append_right
    decide
  · unfold alertDeadlineLine
    cases hd : o.deadline with
    | none => simp
    | some d =>
      simp only [Option.some_ne_none, iff_false]
      exact str_append_ne_empty "⏰ Deadline: " (d ++ "\n") (by decide)
  · unfold alertLocationLine
    cases htv : strTruthy o.location with
    | false => simp
    | true =>
      simp only [if_pos, Bool.true_eq_false, iff_false]
      exact str_append_ne_empty "📍 Location: "
        (o.location.getD "" ++ "\n") (by decide)
  · unfold alertUrlLine
    cases htv : strTruthy o.url with
    | false => simp
    | true =>
      simp only [if_pos, Bool.true_eq_false, iff_false]
      exact str_append_ne_empty "🔗 Learn more: "
        (o.url.getD "" ++ "\n") (by decide)
  · unfold alertTagsLine
    cases ht : o.tags.isEmpty with
    | false =>
      simp only [Bool.false_eq_true, if_false]
      constructor
      · intro h
        exact absurd h (str_append_ne_empty "🏷️ Tags: "
          (String.intercalate ", " (o.tags.take 5) ++ "\n") (by decide))
      · intro h
        rw [h] at ht
        simp at ht
    | true =>
      simp only [if_true]
      simpa [eq_comm] using List.isEmpty_iff.mp ht

/-- The short-description fixture: 5 characters, nothing optional. -/
def cxO5 : Opportunity :=
  { id := 51, title := "T", description := "Short",
    opportunity_type := "event", organization := "Org", url := none,
    deadline := none, location := none, language := "en", tags := [],
    is_active := true, created_by := 1, created_at := 1 }

/-- C5 (counterexample): a 5-character description is NOT truncated by the
200-character bound, yet the formatted message still carries the ellipsis
marker right after it — the marker is appended unconditionally, not "if and
only if the description was truncated". -/
theorem format_unconditional_ellipsis_cex :
    cxO5.description.data.length < 200
    ∧ format_opportunity_message cxO5
        = "🎓 *T*\n\n📝 Short...\n\n🏢 Organization: Org\n" := by
  decide

/-- The alert target of the isolation scenario. -/
def wO9 : Opportunity :=
  { id := 91, title := "Grant", description := "money",
    opportunity_type := "funding", organization := "org", url := none,
    deadline := none, location := none, language := "en", tags := [],
    is_active := true, created_by := 1, created_at := 1 }

/-- Telegram binding of the isolation-scenario user. -/
def wB9t : UserPlatform :=
  { user_id := 1, platform := .telegram, platform_user_id := "t1",
    is_active := true }

/-- Discord binding of the isolation-scenario user. -/
def wB9d : UserPlatform :=
  { user_id := 1, platform := .discord, platform_user_id := "d1",
    is_active := true }

/-- The subscription row of the isolation-scenario user. -/
def wSub9 : Subscription :=
  { id := 1, user_id := 1, opportunity_id := 91, is_active := true }

/-- Store with one subscribed user holding two active bindings. -/
def wDb9 : Db :=
  { opportunities := [wO9], users := [{ id := 1, is_active := true }],
    user_platforms := [wB9t, wB9d], user_preferences := [],
    subscriptions := [wSub9], notifications := [] }

/-- C9 (code evaluated at the failing input): in exactly the isolation
scenario — a resolving opportunity and one subscribed user with two active
platform bindings — `send_opportunity_alert` never returns the overall
success signal: it raises `NameError` while building the user query,
before the per-user loop (and the per-binding `try/except` inside
`_send_to_user_platforms`) can run, so neither channel receives a message
and no delivery record is appended. -/
theorem dispatch_success_unreachable_bug :
    wB9t.is_active = true
    ∧ wB9d.is_active = true
    ∧ (wDb9.opportunities.find? (fun o => o.id == 91)).isSome = true
    ∧ send_opportunity_alert wDb9 91 none = Except.error wDb9
    ∧ wDb9.notifications = [] :=
  ⟨rfl, rfl, rfl, rfl, rfl⟩

end EduOpp
